import Mathlib

/-!
Shallow embedding of the conversation-session controller of PecuniaAI's
frontend (src/app/frontend/src/App.tsx and the Chat component embedded in
src/app/frontend/src/components/custom/ChatInput.tsx).

The controller holds an ordered list of messages, a draft input string and
a loading flag, and on submission issues one HTTP POST whose body is
`{ query: <text> }`, appending the response's `answer` field (or a fixed
error message) to the list.

The single suspension point (`await fetch` followed by `await res.json()`)
is modelled by a `FetchOutcome` parameter describing how the environment
resolves the call, following the standard semantics of the fetch API:
the fetch promise rejects only on a network failure; an HTTP error status
(non-2xx) still resolves normally, and `res.json()` rejects exactly when
the body is not valid JSON.  The `answer` field of a parsed body may be
absent, in which case `data.answer` is `undefined`; message content is
therefore `Option String`, with `none` standing for `undefined`.
-/

/-- The `role` field of a message: `"user" | "assistant"`. -/
inductive Role where
  | user
  | assistant
deriving DecidableEq, Repr

/-- A chat message `{ role, content }`.  `content` is `Option String`
because an unvalidated response shape can surface `undefined` content. -/
structure Message where
  role : Role
  content : Option String
deriving DecidableEq, Repr

/-- The controller state: the `messages` list, the `input` draft and the
`loading` flag of the React component. -/
structure ConversationState where
  messages : List Message
  input : String
  loading : Bool
deriving DecidableEq, Repr

/-- The JSON body `{ query: <string> }` of the outbound POST request. -/
structure RequestBody where
  query : String
deriving DecidableEq, Repr

/-- How `res.json()` resolves: `invalid` when the body is not valid JSON
(the promise rejects), `valid answer` when it parses, carrying the
`answer` field when present. -/
inductive ResponseBody where
  | invalid
  | valid (answer : Option String)
deriving DecidableEq, Repr

/-- How the environment resolves the network call: `networkError` when the
fetch promise rejects, `response status body` when an HTTP response
arrives (any status, 2xx or not — fetch does not reject on HTTP errors). -/
inductive FetchOutcome where
  | networkError
  | response (status : Nat) (body : ResponseBody)
deriving DecidableEq, Repr

/-- Whether the awaited calls inside the try block raise an exception:
`fetch` raises on a network error, `res.json()` raises on a non-JSON
body.  A resolved response with a parseable body raises nothing,
whatever its HTTP status. -/
def FetchOutcome.throws : FetchOutcome → Bool
  | .networkError => true
  | .response _ .invalid => true
  | .response _ (.valid _) => false

/-- The WhiteSpace and LineTerminator set that JavaScript's
`String.prototype.trim` removes (ECMA-262): TAB, LF, VT, FF, CR, SPACE,
NBSP, BOM, the Unicode Zs category and the line/paragraph separators. -/
def jsWhitespace (c : Char) : Bool :=
  c.toNat == 0x9 || c.toNat == 0xA || c.toNat == 0xB || c.toNat == 0xC ||
  c.toNat == 0xD || c.toNat == 0x20 || c.toNat == 0xA0 || c.toNat == 0x1680 ||
  (0x2000 ≤ c.toNat && c.toNat ≤ 0x200A) ||
  c.toNat == 0x2028 || c.toNat == 0x2029 || c.toNat == 0x202F ||
  c.toNat == 0x205F || c.toNat == 0x3000 || c.toNat == 0xFEFF

/-- JavaScript's `text.trim()`: drop leading and trailing whitespace. -/
def jsTrim (s : String) : String :=
  ⟨((s.data.dropWhile jsWhitespace).reverse.dropWhile jsWhitespace).reverse⟩

/-- `{ role: "user", content: text }` as built by `sendMessage`. -/
def userMessage (text : String) : Message :=
  { role := .user, content := some text }

/-- The fixed error message appended by the catch branch of
`App.sendMessage`. -/
def errorMessage : Message :=
  { role := .assistant, content := some "Error: Could not get response." }

/-- The result of running a controller's `sendMessage` to completion:
the final component state, the outbound requests issued during the call
(in order), and whether the async function itself rejected (propagating
an exception to its caller). -/
structure ControllerResult where
  state : ConversationState
  requests : List RequestBody
  threw : Bool
deriving DecidableEq, Repr

/-- The synchronous phase of `sendMessage`, up to the suspension point:
`if (!input.trim()) return` rejects blank input with no state change and
no request; otherwise the user message is appended, the draft cleared,
`loading` set, and one request with body `{ query: input }` is issued.
The `query` reads the closure's `input` captured at call time, so it is
the original text even though the draft state was just cleared. -/
def submitPhase1 (s : ConversationState) : Option (ConversationState × RequestBody) :=
  if jsTrim s.input = "" then
    none
  else
    some
      ({ messages := s.messages ++ [userMessage s.input]
         input := ""
         loading := true },
       { query := s.input })

/-- `sendMessage` of the App component (src/app/frontend/src/App.tsx,
lines 24-48): the resumption after the suspension point runs inside
try/catch/finally.  On success the `answer` field is appended as an
assistant message; on any raised exception the catch appends the fixed
error message; the finally clause always clears `loading`; the async
function never rejects. -/
def appSendMessage (s : ConversationState) (o : FetchOutcome) : ControllerResult :=
  match submitPhase1 s with
  | none => ⟨s, [], false⟩
  | some (mid, req) =>
    match o with
    | .networkError =>
        ⟨{ mid with messages := mid.messages ++ [errorMessage], loading := false },
         [req], false⟩
    | .response _ .invalid =>
        ⟨{ mid with messages := mid.messages ++ [errorMessage], loading := false },
         [req], false⟩
    | .response _ (.valid ans) =>
        ⟨{ mid with messages := mid.messages ++ [⟨.assistant, ans⟩], loading := false },
         [req], false⟩

/-- `sendMessage` of the Chat component embedded in
src/app/frontend/src/components/custom/ChatInput.tsx (lines 60-76): the
same synchronous phase, but the awaits run with no try/catch and no
finally.  On success the assistant message is appended and `loading`
cleared; on a raised exception the async function rejects with the state
left as the synchronous phase produced it (`loading` still true, no
error message appended). -/
def chatSendMessage (s : ConversationState) (o : FetchOutcome) : ControllerResult :=
  match submitPhase1 s with
  | none => ⟨s, [], false⟩
  | some (mid, req) =>
    match o with
    | .networkError => ⟨mid, [req], true⟩
    | .response _ .invalid => ⟨mid, [req], true⟩
    | .response _ (.valid ans) =>
        ⟨{ mid with messages := mid.messages ++ [⟨.assistant, ans⟩], loading := false },
         [req], false⟩

/-- Helper: the synchronous phase on non-blank input, in closed form. -/
theorem submitPhase1_pos (s : ConversationState) (h : jsTrim s.input ≠ "") :
    submitPhase1 s
      = some (⟨s.messages ++ [userMessage s.input], "", true⟩, ⟨s.input⟩) := by
  simp [submitPhase1, h]

/-- Helper: `App.sendMessage` on non-blank input when the awaited call
raises, in closed form. -/
theorem appSendMessage_throws (s : ConversationState) (o : FetchOutcome)
    (h : jsTrim s.input ≠ "") (ho : o.throws = true) :
    appSendMessage s o =
      ⟨⟨s.messages ++ [userMessage s.input, errorMessage], "", false⟩,
       [⟨s.input⟩], false⟩ := by
  cases o with
  | networkError => simp [appSendMessage, submitPhase1, h]
  | response st b =>
    cases b with
    | invalid => simp [appSendMessage, submitPhase1, h]
    | valid a => simp [FetchOutcome.throws] at ho

/-- Helper: `App.sendMessage` on non-blank input with a parseable
response body, in closed form. -/
theorem appSendMessage_valid (s : ConversationState) (status : Nat)
    (ans : Option String) (h : jsTrim s.input ≠ "") :
    appSendMessage s (.response status (.valid ans)) =
      ⟨⟨s.messages ++ [userMessage s.input, ⟨.assistant, ans⟩], "", false⟩,
       [⟨s.input⟩], false⟩ := by
  simp [appSendMessage, submitPhase1, h]

/-- Helper: both controllers ignore blank input. -/
theorem sendMessage_blank (s : ConversationState) (o : FetchOutcome)
    (h : jsTrim s.input = "") :
    appSendMessage s o = ⟨s, [], false⟩ ∧ chatSendMessage s o = ⟨s, [], false⟩ := by
  constructor <;> simp [appSendMessage, chatSendMessage, submitPhase1, h]

/-- Helper: `Chat.sendMessage` on non-blank input when the awaited call
raises: the rejection propagates and the state stays as the synchronous
phase left it. -/
theorem chatSendMessage_throws (s : ConversationState) (o : FetchOutcome)
    (h : jsTrim s.input ≠ "") (ho : o.throws = true) :
    chatSendMessage s o =
      ⟨⟨s.messages ++ [userMessage s.input], "", true⟩, [⟨s.input⟩], true⟩ := by
  cases o with
  | networkError => simp [chatSendMessage, submitPhase1, h]
  | response st b =>
    cases b with
    | invalid => simp [chatSendMessage, submitPhase1, h]
    | valid a => simp [FetchOutcome.throws] at ho

/-- Helper: `Chat.sendMessage` on non-blank input with a parseable
response body agrees with the App controller, in closed form. -/
theorem chatSendMessage_valid (s : ConversationState) (status : Nat)
    (ans : Option String) (h : jsTrim s.input ≠ "") :
    chatSendMessage s (.response status (.valid ans)) =
      ⟨⟨s.messages ++ [userMessage s.input, ⟨.assistant, ans⟩], "", false⟩,
       [⟨s.input⟩], false⟩ := by
  simp [chatSendMessage, submitPhase1, h]

/-- C1: for every input whose trimmed form is non-empty, the synchronous
phase of `sendMessage` — everything that runs before the network call
resolves — appends exactly one user message carrying the raw text, clears
the draft to `""`, sets the loading flag, and the whole call issues
exactly one outbound request whose body is `{ query: text }`. -/
theorem C1_submit_appends_and_requests (s : ConversationState)
    (h : jsTrim s.input ≠ "") :
    submitPhase1 s =
      some (⟨s.messages ++ [userMessage s.input], "", true⟩, ⟨s.input⟩) ∧
    ∀ o, (appSendMessage s o).requests = [⟨s.input⟩] := by
  refine ⟨by simp [submitPhase1, h], ?_⟩
  intro o
  cases o with
  | networkError => simp [appSendMessage, submitPhase1, h]
  | response st b => cases b <;> simp [appSendMessage, submitPhase1, h]

theorem C1_submit_appends_and_requests_witness :
    jsTrim "Hello" ≠ "" ∧
    (submitPhase1 ⟨[], "Hello", false⟩ =
        some (⟨[userMessage "Hello"], "", true⟩, ⟨"Hello"⟩) ∧
      ∀ o, (appSendMessage ⟨[], "Hello", false⟩ o).requests = [⟨"Hello"⟩]) :=
  ⟨by decide, C1_submit_appends_and_requests ⟨[], "Hello", false⟩ (by decide)⟩

/-- C2: whenever the awaited call raises (network error or non-JSON
body), `App.sendMessage` appends exactly one assistant message with the
fixed error text, does not propagate the failure to its caller, and ends
with the loading flag cleared. -/
theorem C2_failure_appends_error (s : ConversationState) (o : FetchOutcome)
    (h : jsTrim s.input ≠ "") (ho : o.throws = true) :
    (appSendMessage s o).state.messages
        = s.messages ++ [userMessage s.input, errorMessage] ∧
    (appSendMessage s o).threw = false ∧
    (appSendMessage s o).state.loading = false := by
  cases o with
  | networkError => simp [appSendMessage, submitPhase1, h]
  | response st b =>
    cases b with
    | invalid => simp [appSendMessage, submitPhase1, h]
    | valid a => simp [FetchOutcome.throws] at ho

theorem C2_failure_appends_error_witness :
    (jsTrim "Hello" ≠ "" ∧ FetchOutcome.networkError.throws = true) ∧
    ((appSendMessage ⟨[], "Hello", false⟩ .networkError).state.messages
        = [userMessage "Hello", errorMessage] ∧
      (appSendMessage ⟨[], "Hello", false⟩ .networkError).threw = false ∧
      (appSendMessage ⟨[], "Hello", false⟩ .networkError).state.loading = false) :=
  ⟨⟨by decide, by decide⟩,
   C2_failure_appends_error ⟨[], "Hello", false⟩ .networkError (by decide) (by decide)⟩

/-- C3: for a submission of non-empty trimmed text the loading flag is
true in the state produced before the call resolves, and false in the
final state for every way the call can resolve, success or failure. -/
theorem C3_busy_during_request (s : ConversationState)
    (h : jsTrim s.input ≠ "") :
    (∃ mid req, submitPhase1 s = some (mid, req) ∧ mid.loading = true) ∧
    ∀ o, (appSendMessage s o).state.loading = false := by
  refine ⟨⟨⟨s.messages ++ [userMessage s.input], "", true⟩, ⟨s.input⟩,
    by simp [submitPhase1, h], rfl⟩, ?_⟩
  intro o
  cases o with
  | networkError => simp [appSendMessage, submitPhase1, h]
  | response st b => cases b <;> simp [appSendMessage, submitPhase1, h]

theorem C3_busy_during_request_witness :
    jsTrim "Hello" ≠ "" ∧
    ((∃ mid req, submitPhase1 ⟨[], "Hello", false⟩ = some (mid, req) ∧
        mid.loading = true) ∧
      ∀ o, (appSendMessage ⟨[], "Hello", false⟩ o).state.loading = false) :=
  ⟨by decide, C3_busy_during_request ⟨[], "Hello", false⟩ (by decide)⟩

/-- C4: when the response resolves with a parsed JSON body whose `answer`
field is the string `a`, exactly one assistant message with content `a`
is appended, directly after the user message of the same submission. -/
theorem C4_success_appends_answer (s : ConversationState) (status : Nat)
    (a : String) (h : jsTrim s.input ≠ "") :
    (appSendMessage s (.response status (.valid (some a)))).state.messages
      = s.messages ++ [userMessage s.input, ⟨.assistant, some a⟩] := by
  simp [appSendMessage, submitPhase1, h]

theorem C4_success_appends_answer_witness :
    jsTrim "Hello" ≠ "" ∧
    (appSendMessage ⟨[], "Hello", false⟩
        (.response 200 (.valid (some "42")))).state.messages
      = [userMessage "Hello", ⟨.assistant, some "42"⟩] :=
  ⟨by decide, C4_success_appends_answer ⟨[], "Hello", false⟩ 200 "42" (by decide)⟩

/-- C5: submitting text that is empty or whitespace-only leaves the
whole state (messages, draft, loading) unchanged and issues no outbound
request, for every possible environment. -/
theorem C5_blank_input_noop (s : ConversationState) (o : FetchOutcome)
    (h : jsTrim s.input = "") :
    appSendMessage s o = ⟨s, [], false⟩ := by
  simp [appSendMessage, submitPhase1, h]

theorem C5_blank_input_noop_witness :
    jsTrim "  " = "" ∧
    appSendMessage ⟨[], "  ", false⟩ .networkError = ⟨⟨[], "  ", false⟩, [], false⟩ :=
  ⟨by decide, C5_blank_input_noop ⟨[], "  ", false⟩ .networkError (by decide)⟩

/-- C6 counterexample: a non-2xx response does NOT always yield the
fixed error notice.  The fetch promise resolves on an HTTP 500, and when
the 500 body is valid JSON (here `{ "answer": "oops" }`) no exception is
raised, so the catch branch never runs: the appended assistant message
carries the body's answer field, which differs from the error notice. -/
theorem C6_counterexample :
    (appSendMessage ⟨[], "Hi", false⟩
        (.response 500 (.valid (some "oops")))).state.messages
      = [userMessage "Hi", ⟨.assistant, some "oops"⟩] ∧
    (⟨.assistant, some "oops"⟩ : Message) ≠ errorMessage := by
  decide

/-- C6 (amended): every failure kind that raises — network failure and a
body that is not valid JSON, which includes every non-2xx response with
an unparseable body — collapses to the same fixed assistant-role error
message; but a non-2xx response whose body parses as JSON is not
detected as an error: its answer field (possibly absent) is appended as
an ordinary assistant message. -/
theorem C6_error_collapse (s : ConversationState) (status : Nat)
    (h : jsTrim s.input ≠ "") :
    (appSendMessage s .networkError).state.messages
        = s.messages ++ [userMessage s.input, errorMessage] ∧
    (appSendMessage s (.response status .invalid)).state.messages
        = s.messages ++ [userMessage s.input, errorMessage] ∧
    ∀ ans, (appSendMessage s (.response status (.valid ans))).state.messages
        = s.messages ++ [userMessage s.input, ⟨.assistant, ans⟩] := by
  refine ⟨?_, ?_, fun ans => ?_⟩
  · rw [appSendMessage_throws s .networkError h rfl]
  · rw [appSendMessage_throws s (.response status .invalid) h rfl]
  · rw [appSendMessage_valid s status ans h]

theorem C6_error_collapse_witness :
    jsTrim "Hi" ≠ "" ∧
    ((appSendMessage ⟨[], "Hi", false⟩ .networkError).state.messages
        = [userMessage "Hi", errorMessage] ∧
      (appSendMessage ⟨[], "Hi", false⟩ (.response 500 .invalid)).state.messages
        = [userMessage "Hi", errorMessage] ∧
      ∀ ans, (appSendMessage ⟨[], "Hi", false⟩
          (.response 500 (.valid ans))).state.messages
        = [userMessage "Hi", ⟨.assistant, ans⟩]) :=
  ⟨by decide, C6_error_collapse ⟨[], "Hi", false⟩ 500 (by decide)⟩

/-- C7: the message sequence is append-only: for every starting state
and every environment, the prior sequence is an unchanged initial
segment of the final sequence, and whenever the synchronous phase issues
a request, the prior sequence is an initial segment of the intermediate
sequence and that of the final one. -/
theorem C7_append_only (s : ConversationState) (o : FetchOutcome) :
    (∃ t, (appSendMessage s o).state.messages = s.messages ++ t) ∧
    ∀ mid req, submitPhase1 s = some (mid, req) →
      (∃ t, mid.messages = s.messages ++ t) ∧
      ∃ t, (appSendMessage s o).state.messages = mid.messages ++ t := by
  by_cases h : jsTrim s.input = ""
  · refine ⟨⟨[], by simp [(sendMessage_blank s o h).1]⟩, ?_⟩
    intro mid req hx
    simp [submitPhase1, h] at hx
  · have h1 := submitPhase1_pos s h
    have hfin : ∃ x, (appSendMessage s o).state.messages
        = s.messages ++ [userMessage s.input] ++ [x] := by
      cases o with
      | networkError =>
        exact ⟨errorMessage,
          by rw [appSendMessage_throws s .networkError h rfl]; simp⟩
      | response st b =>
        cases b with
        | invalid =>
          exact ⟨errorMessage,
            by rw [appSendMessage_throws s (.response st .invalid) h rfl]; simp⟩
        | valid a =>
          exact ⟨⟨.assistant, a⟩, by rw [appSendMessage_valid s st a h]; simp⟩
    obtain ⟨x, hx⟩ := hfin
    refine ⟨⟨[userMessage s.input, x], by simp [hx]⟩, ?_⟩
    intro mid req hmr
    rw [h1] at hmr
    simp only [Option.some.injEq, Prod.mk.injEq] at hmr
    obtain ⟨hm, hr⟩ := hmr
    subst hm
    exact ⟨⟨[userMessage s.input], rfl⟩, ⟨[x], by simp [hx]⟩⟩

theorem C7_append_only_witness :
    (∃ t, (appSendMessage ⟨[userMessage "a"], "b", false⟩ .networkError).state.messages
        = [userMessage "a"] ++ t) ∧
    ((∃ t, ([userMessage "a", userMessage "b"] : List Message)
        = [userMessage "a"] ++ t) ∧
      ∃ t, (appSendMessage ⟨[userMessage "a"], "b", false⟩ .networkError).state.messages
        = [userMessage "a", userMessage "b"] ++ t) :=
  ⟨(C7_append_only ⟨[userMessage "a"], "b", false⟩ .networkError).1,
   (C7_append_only ⟨[userMessage "a"], "b", false⟩ .networkError).2
     ⟨[userMessage "a", userMessage "b"], "", true⟩ ⟨"b"⟩ (by decide)⟩

/-- C8: no failure is fatal: after a failed request the controller is
idle again (loading false), exactly one error message was appended and
exactly one request was issued (no retry), and a subsequent submission
of non-blank text behaves according to the normal submit contract from
where the failed exchange left the state. -/
theorem C8_failure_not_fatal (s : ConversationState) (o : FetchOutcome)
    (h : jsTrim s.input ≠ "") (ho : o.throws = true) :
    (appSendMessage s o).state.loading = false ∧
    (appSendMessage s o).state.messages
        = s.messages ++ [userMessage s.input, errorMessage] ∧
    (appSendMessage s o).requests.length = 1 ∧
    ∀ t, jsTrim t ≠ "" →
      submitPhase1 { (appSendMessage s o).state with input := t }
        = some (⟨(appSendMessage s o).state.messages ++ [userMessage t], "", true⟩,
                ⟨t⟩) := by
  rw [appSendMessage_throws s o h ho]
  refine ⟨rfl, rfl, rfl, fun t ht => ?_⟩
  exact submitPhase1_pos ⟨s.messages ++ [userMessage s.input, errorMessage], t, false⟩ ht

theorem C8_failure_not_fatal_witness :
    (jsTrim "Hello" ≠ "" ∧ FetchOutcome.networkError.throws = true ∧
      jsTrim "Again" ≠ "") ∧
    ((appSendMessage ⟨[], "Hello", false⟩ .networkError).state.loading = false ∧
      (appSendMessage ⟨[], "Hello", false⟩ .networkError).state.messages
        = [userMessage "Hello", errorMessage] ∧
      (appSendMessage ⟨[], "Hello", false⟩ .networkError).requests.length = 1 ∧
      submitPhase1
          { (appSendMessage ⟨[], "Hello", false⟩ .networkError).state with input := "Again" }
        = some (⟨(appSendMessage ⟨[], "Hello", false⟩ .networkError).state.messages
            ++ [userMessage "Again"], "", true⟩, ⟨"Again"⟩)) := by
  have H := C8_failure_not_fatal ⟨[], "Hello", false⟩ .networkError
    (by decide) (by decide)
  exact ⟨⟨by decide, by decide, by decide⟩,
    H.1, H.2.1, H.2.2.1, H.2.2.2 "Again" (by decide)⟩

/-- C9: no trimming is applied to the submitted content: when the input
carries surrounding whitespace (so it differs from its trimmed form),
the appended user message and the request body both carry the raw
untrimmed input, the draft is still cleared, and both differ from the
trimmed form. -/
theorem C9_no_trimming (s : ConversationState) (h : jsTrim s.input ≠ "")
    (hw : s.input ≠ jsTrim s.input) :
    submitPhase1 s
        = some (⟨s.messages ++ [userMessage s.input], "", true⟩, ⟨s.input⟩) ∧
    userMessage s.input ≠ userMessage (jsTrim s.input) ∧
    (⟨s.input⟩ : RequestBody) ≠ ⟨jsTrim s.input⟩ := by
  refine ⟨submitPhase1_pos s h, ?_, ?_⟩ <;> simp [userMessage, hw]

theorem C9_no_trimming_witness :
    (jsTrim "  X  " ≠ "" ∧ "  X  " ≠ jsTrim "  X  ") ∧
    (submitPhase1 ⟨[], "  X  ", false⟩
        = some (⟨[userMessage "  X  "], "", true⟩, ⟨"  X  "⟩) ∧
      userMessage "  X  " ≠ userMessage (jsTrim "  X  ") ∧
      (⟨"  X  "⟩ : RequestBody) ≠ ⟨jsTrim "  X  "⟩) :=
  ⟨⟨by decide, by decide⟩,
   C9_no_trimming ⟨[], "  X  ", false⟩ (by decide) (by decide)⟩

/-- C10 counterexample: the two controllers do NOT produce the same
final state on the failure path.  From an empty conversation with draft
"Hello" and a network error, the App controller ends with the error
message appended and loading false, while the Chat controller ends with
no error message and loading still true. -/
theorem C10_counterexample :
    (appSendMessage ⟨[], "Hello", false⟩ .networkError).state ≠
      (chatSendMessage ⟨[], "Hello", false⟩ .networkError).state := by
  decide

/-- C10 (amended): the two controllers agree on every blank submission
and on every submission whose awaited call does not raise; but on a
non-blank submission whose call raises they differ: the Chat controller
propagates the exception, leaves loading true, and appends no error
message, so the final states are distinct. -/
theorem C10_partial_equivalence (s : ConversationState) (o : FetchOutcome) :
    (jsTrim s.input = "" ∨ o.throws = false →
      appSendMessage s o = chatSendMessage s o) ∧
    (jsTrim s.input ≠ "" → o.throws = true →
      (chatSendMessage s o).threw = true ∧
      (chatSendMessage s o).state.loading = true ∧
      (chatSendMessage s o).state.messages = s.messages ++ [userMessage s.input] ∧
      (appSendMessage s o).state ≠ (chatSendMessage s o).state) := by
  constructor
  · rintro (hb | hs)
    · rw [(sendMessage_blank s o hb).1, (sendMessage_blank s o hb).2]
    · by_cases hb : jsTrim s.input = ""
      · rw [(sendMessage_blank s o hb).1, (sendMessage_blank s o hb).2]
      · cases o with
        | networkError => simp [FetchOutcome.throws] at hs
        | response st b =>
          cases b with
          | invalid => simp [FetchOutcome.throws] at hs
          | valid a =>
            rw [appSendMessage_valid s st a hb, chatSendMessage_valid s st a hb]
  · intro h ho
    rw [appSendMessage_throws s o h ho, chatSendMessage_throws s o h ho]
    refine ⟨rfl, rfl, rfl, ?_⟩
    intro heq
    exact Bool.false_ne_true (congrArg ConversationState.loading heq)

theorem C10_partial_equivalence_witness :
    (appSendMessage ⟨[], "Hello", false⟩ (.response 200 (.valid (some "42")))
        = chatSendMessage ⟨[], "Hello", false⟩ (.response 200 (.valid (some "42")))) ∧
    ((chatSendMessage ⟨[], "Hello", false⟩ .networkError).threw = true ∧
      (chatSendMessage ⟨[], "Hello", false⟩ .networkError).state.loading = true ∧
      (chatSendMessage ⟨[], "Hello", false⟩ .networkError).state.messages
        = [userMessage "Hello"] ∧
      (appSendMessage ⟨[], "Hello", false⟩ .networkError).state ≠
        (chatSendMessage ⟨[], "Hello", false⟩ .networkError).state) :=
  ⟨(C10_partial_equivalence ⟨[], "Hello", false⟩
      (.response 200 (.valid (some "42")))).1 (Or.inr (by decide)),
   (C10_partial_equivalence ⟨[], "Hello", false⟩ .networkError).2
     (by decide) (by decide)⟩
